import Mathlib

/-!
Verification of the perceptual similarity scoring engine of the
caregiver-connect backend (`backend/app.py`, `backend/vlm_compare.py`).

Scores are modelled as rationals (ℚ); Python floats are treated as exact
arithmetic.  Network effects (image download, embedding lookup, the
vision-language POST) and PIL image operations are modelled as explicit
environment parameters; image values themselves are a term algebra `Img`
recording exactly which preprocessing operations were applied, with the
pixel-level measurements (`ImageStat` means, histograms, raw pixel data)
abstracted as environment functions over those terms.
-/

/-- A Python value as it appears in a parsed JSON-ish dict.  `num q` is any
value on which `float(value)` succeeds with result `q` (ints, floats, bools);
`str s p` is a string, with `p` the result of `float(s)` when that parse
succeeds; `null` is Python `None`; `other` is any other value on which
`float` raises `TypeError`. -/
inductive PyVal where
  | null : PyVal
  | num (q : ℚ) : PyVal
  | str (s : String) (numeric : Option ℚ) : PyVal
  | other : PyVal
deriving DecidableEq

/-- The result of Python `float(value)`, `none` when `float` raises. -/
def PyVal.toFloat? : PyVal → Option ℚ
  | .num q => some q
  | .str _ (some q) => some q
  | _ => none

/-- The string content of a value, `none` when it is not a `str`. -/
def PyVal.asString : PyVal → Option String
  | .str s _ => some s
  | _ => none

/-- `_safe_string` (vlm_compare.py:73-74): the value if it is a string,
otherwise the empty string. -/
def safeString (v : PyVal) : String := v.asString.getD ""

/-- `parsed.get(key)`: a missing key reads as Python `None`. -/
def pyGet (field : Option PyVal) : PyVal := field.getD .null

/-- `parsed.get(key, default)`: the default is used only when the key is
absent; a present `None` value is returned as-is. -/
def pyGetD (field : Option PyVal) (default : PyVal) : PyVal := field.getD default

/-- Clamping a rational into [0,1], the `max(0.0, min(1.0, parsed))` step
shared by `_clamp_score` (vlm_compare.py:30-35) and `_normalize_score`
(app.py:82-91). -/
def clampQ (q : ℚ) : ℚ := max 0 (min 1 q)

/-- `_clamp_score(value, fallback)` (vlm_compare.py:30-35): parse the value
as a float, falling back on `TypeError`/`ValueError`, then clamp to [0,1]. -/
def clampScore (v : PyVal) (fallback : ℚ) : ℚ := clampQ (v.toFloat?.getD fallback)

/-- `_normalize_score(value)` (app.py:82-91) at its default fallback 0.0,
the form used at every call site in `compare_images`. -/
def normalizeScore (v : PyVal) : ℚ := clampQ (v.toFloat?.getD 0)

/-- Characters matched by the `[a-z0-9]+` token regex of `_tokenize`
(vlm_compare.py:58-59), applied after lower-casing. -/
def isTokenChar (c : Char) : Bool :=
  (('a' ≤ c ∧ c ≤ 'z') ∨ ('0' ≤ c ∧ c ≤ '9') : Bool)

/-- Splits a character stream into maximal runs of token characters, the
effect of `re.findall(r"[a-z0-9]+", value)`.  `acc` holds the current run,
reversed. -/
def tokenRuns : List Char → List Char → List String
  | [], acc => if acc = [] then [] else [String.mk acc.reverse]
  | c :: cs, acc =>
      if isTokenChar c then tokenRuns cs (c :: acc)
      else if acc = [] then tokenRuns cs []
      else String.mk acc.reverse :: tokenRuns cs []

/-- `_tokenize` (vlm_compare.py:58-59): lower-case, split into alphanumeric
runs, keep tokens of length at least 3, as a set. -/
def tokenize (s : String) : Finset String :=
  ((tokenRuns (s.data.map Char.toLower) []).filter (fun t => 3 ≤ t.length)).toFinset

/-- `_jaccard_similarity` (vlm_compare.py:62-70). -/
def jaccardSimilarity (left right : String) : ℚ :=
  let leftTokens := tokenize left
  let rightTokens := tokenize right
  if leftTokens = ∅ ∧ rightTokens = ∅ then 0
  else
    let union := leftTokens ∪ rightTokens
    if union = ∅ then 0
    else clampQ (((leftTokens ∩ rightTokens).card : ℚ) / (union.card : ℚ))

/-- `_cosine_similarity` (vlm_compare.py:91-106).  The square root used for
the Euclidean norms is irrational in general, so it is passed in as the
interpretation `sqrt` of Python's `** 0.5`. -/
def cosineSimilarity (sqrt : ℚ → ℚ) (left right : List ℚ) : Option ℚ :=
  if left = [] ∨ right = [] then none
  else
    let size := min left.length right.length
    if size = 0 then none
    else
      let l := left.take size
      let r := right.take size
      let dot := ((l.zip r).map (fun p => p.1 * p.2)).sum
      let leftNorm := sqrt ((l.map (fun a => a * a)).sum)
      let rightNorm := sqrt ((r.map (fun b => b * b)).sum)
      if leftNorm = 0 ∨ rightNorm = 0 then none
      else some (clampQ ((dot / (leftNorm * rightNorm) + 1) / 2))

lemma clampQ_nonneg (q : ℚ) : 0 ≤ clampQ q := le_max_left 0 _

lemma clampQ_le_one (q : ℚ) : clampQ q ≤ 1 :=
  max_le zero_le_one (min_le_left 1 q)

lemma clampQ_eq_self {q : ℚ} (h0 : 0 ≤ q) (h1 : q ≤ 1) : clampQ q = q := by
  unfold clampQ
  rw [min_eq_right h1, max_eq_right h0]

lemma jaccardSimilarity_nonneg (l r : String) : 0 ≤ jaccardSimilarity l r := by
  unfold jaccardSimilarity
  dsimp only
  split
  · exact le_refl 0
  · split
    · exact le_refl 0
    · exact clampQ_nonneg _

lemma jaccardSimilarity_le_one (l r : String) : jaccardSimilarity l r ≤ 1 := by
  unfold jaccardSimilarity
  dsimp only
  split
  · exact zero_le_one
  · split
    · exact zero_le_one
    · exact clampQ_le_one _

/-! ## Images and the pair scorer (`vlm_compare.py`) -/

/-- PIL images, as a term algebra recording the preprocessing operations the
engine applies.  `normalizeCanvas i s` is the `_normalize_canvas` letterbox
(vlm_compare.py:155-161): `ImageOps.contain` onto an `s`×`s` white canvas,
aspect-ratio preserving and centered.  `resize i w h` is the plain
(distorting) `Image.resize((w, h))`; `convertL` is `convert("L")`;
`findEdges` is `filter(ImageFilter.FIND_EDGES)`; `crop`/`rotate` are the
variant-generator operations (rotation with `expand=True`). -/
inductive Img where
  | src (id : Nat) : Img
  | normalizeCanvas (i : Img) (size : Nat) : Img
  | resize (i : Img) (w h : Nat) : Img
  | convertL (i : Img) : Img
  | findEdges (i : Img) : Img
  | crop (i : Img) (left top right bottom : Nat) : Img
  | rotate (i : Img) (angle : Nat) : Img
deriving DecidableEq

/-- The pixel-level PIL measurements the extractors consume, abstracted as
functions over image terms.  `meanDiffChannels a b` is
`ImageStat.Stat(ImageChops.difference(a, b)).mean` (the per-channel means of
the absolute difference); `histogram i` is `i.histogram()`; `getdata i` is
`list(i.getdata())` for a grayscale image; `size i` is `i.size`. -/
structure PILPrims where
  meanDiffChannels : Img → Img → List ℚ
  histogram : Img → List Nat
  getdata : Img → List Nat
  size : Img → Nat × Nat

/-- Mean of a list of rationals, `sum(xs) / len(xs)`.  (In the source the
lists this is applied to are the channel means of an RGB image, hence
nonempty; ℚ division by zero returns the junk value 0.) -/
def meanList (l : List ℚ) : ℚ := l.sum / l.length

/-- `_average_hash_bits` (vlm_compare.py:51-55): grayscale, downsample to
8×8, binarize each pixel against the image mean. -/
def averageHashBits (P : PILPrims) (image : Img) : List Nat :=
  let pixels := P.getdata (Img.resize (Img.convertL image) 8 8)
  let mean : ℚ := ((pixels.map (fun v => (v : ℚ))).sum) / pixels.length
  pixels.map (fun v => if mean ≤ (v : ℚ) then 1 else 0)

/-- The fusion step of `_compute_pair_similarity` (vlm_compare.py:189-197):
weighted sum of the four feature scores, a +0.08 confidence boost clamped to
1.0 when the weighted sum reaches 0.85, and the final `_clamp_score`. -/
def blendScores (pixel histogram edge hash : ℚ) : ℚ :=
  let blended := 0.35 * pixel + 0.25 * histogram + 0.20 * edge + 0.20 * hash
  clampQ (if 0.85 ≤ blended then min 1 (blended + 0.08) else blended)

/-- The pixel-difference extractor (vlm_compare.py:165-168):
`1 - mean_diff / 255`, clamped, where `mean_diff` is the mean of the
per-channel means of the absolute difference. -/
def pixelSimilarity (P : PILPrims) (a b : Img) : ℚ :=
  clampQ (1 - meanList (P.meanDiffChannels a b) / 255)

/-- The histogram-overlap extractor (vlm_compare.py:172-176): sum of
pointwise minima of the two histograms over the total mass of the first
(floored at 1), clamped. -/
def histogramSimilarity (P : PILPrims) (a b : Img) : ℚ :=
  let refHist := P.histogram a
  let testHist := P.histogram b
  let overlap := ((refHist.zip testHist).map (fun p => min p.1 p.2)).sum
  clampQ ((overlap : ℚ) / (max 1 refHist.sum : ℚ))

/-- The edge-map extractor (vlm_compare.py:180-182): applied to the two
FIND_EDGES images, `1 - mean[0] / 255` of their absolute difference,
clamped.  (`mean[0]` is the first — for a grayscale image, only — channel
mean.) -/
def edgeSimilarity (P : PILPrims) (a b : Img) : ℚ :=
  clampQ (1 - (P.meanDiffChannels a b).headD 0 / 255)

/-- The perceptual-hash extractor (vlm_compare.py:184-187): Hamming distance
between the two average-hash bit vectors, converted to `1 - hamming / 64`,
clamped.  Takes the original images; the 8×8 grayscale downsampling happens
inside `_average_hash_bits`. -/
def hashSimilarity (P : PILPrims) (a b : Img) : ℚ :=
  let refHash := averageHashBits P a
  let testHash := averageHashBits P b
  let hamming := ((refHash.zip testHash).filter (fun p => p.1 ≠ p.2)).length
  clampQ (1 - (hamming : ℚ) / 64)

/-- `_compute_pair_similarity` (vlm_compare.py:154-197).  Note which
preprocessed image each extractor receives: only the pixel-difference
extractor sees the letterboxed `_normalize_canvas` images; the histogram and
edge extractors see the plain `resize((256, 256))` grayscale images, and the
hash extractor the original images. -/
def computePairSimilarity (P : PILPrims) (referenceImage testImage : Img) : ℚ :=
  let refResized := Img.normalizeCanvas referenceImage 256
  let testResized := Img.normalizeCanvas testImage 256
  let pixel := pixelSimilarity P refResized testResized
  let refGray := Img.convertL (Img.resize referenceImage 256 256)
  let testGray := Img.convertL (Img.resize testImage 256 256)
  let hist := histogramSimilarity P refGray testGray
  let edge := edgeSimilarity P (Img.findEdges refGray) (Img.findEdges testGray)
  let hash := hashSimilarity P referenceImage testImage
  blendScores pixel hist edge hash

/-- `_multi_crops` (vlm_compare.py:210-219): the image itself plus center
crops at ratios 0.90 and 0.75.  `int(w * ratio)` truncates, modelled by
natural division; `max(0, (w - cw) // 2)` is natural truncated
subtraction. -/
def multiCrops (P : PILPrims) (image : Img) : List Img :=
  let w := (P.size image).1
  let h := (P.size image).2
  let cropAt := fun (num den : Nat) =>
    let cw := max 1 (w * num / den)
    let ch := max 1 (h * num / den)
    let left := (w - cw) / 2
    let top := (h - ch) / 2
    Img.crop image left top (left + cw) (top + ch)
  [image, cropAt 9 10, cropAt 3 4]

/-- The test-image variants (vlm_compare.py:222-226): every crop rotated by
0°, 90°, 180° and 270° (`expand=True`). -/
def testVariantsOf (P : PILPrims) (test : Img) : List Img :=
  (multiCrops P test).flatMap (fun base => [0, 90, 180, 270].map (fun a => Img.rotate base a))

/-- The pair scores over all reference-variant × test-variant combinations
(vlm_compare.py:228-232), in the comprehension's order. -/
def variantScores (P : PILPrims) (ref test : Img) : List ℚ :=
  (multiCrops P ref).flatMap (fun rv =>
    (testVariantsOf P test).map (fun tv => computePairSimilarity P rv tv))

/-- Python `max` over a list, 0 for the empty list (on which the source
never calls it). -/
def listMax : List ℚ → ℚ
  | [] => 0
  | x :: xs => xs.foldl max x

lemma le_foldl_max (xs : List ℚ) (b : ℚ) : b ≤ xs.foldl max b := by
  induction xs generalizing b with
  | nil => exact le_refl b
  | cons x xs ih => exact le_trans (le_max_left b x) (ih (max b x))

lemma foldl_max_le {xs : List ℚ} {b c : ℚ} (hb : b ≤ c) (h : ∀ x ∈ xs, x ≤ c) :
    xs.foldl max b ≤ c := by
  induction xs generalizing b with
  | nil => exact hb
  | cons x xs ih =>
      exact ih (max_le hb (h x (List.mem_cons_self x xs)))
        (fun y hy => h y (List.mem_cons_of_mem x hy))

lemma mem_le_foldl_max {xs : List ℚ} {a : ℚ} (b : ℚ) (h : a ∈ xs) :
    a ≤ xs.foldl max b := by
  induction xs generalizing b with
  | nil => cases h
  | cons y ys ih =>
      rcases List.mem_cons.mp h with rfl | hmem
      · exact le_trans (le_max_right b a) (le_foldl_max ys (max b a))
      · exact ih (max b y) hmem

lemma listMax_ge {l : List ℚ} {a : ℚ} (h : a ∈ l) : a ≤ listMax l := by
  cases l with
  | nil => cases h
  | cons x xs =>
      rcases List.mem_cons.mp h with rfl | hmem
      · exact le_foldl_max xs a
      · exact mem_le_foldl_max x hmem

lemma foldl_max_mem (xs : List ℚ) (b : ℚ) : xs.foldl max b = b ∨ xs.foldl max b ∈ xs := by
  induction xs generalizing b with
  | nil => exact Or.inl rfl
  | cons y ys ih =>
      rcases ih (max b y) with heq | hmem
      · rw [List.foldl_cons, heq]
        rcases le_total b y with hby | hby
        · exact Or.inr (by rw [max_eq_right hby]; exact List.mem_cons_self y ys)
        · exact Or.inl (max_eq_left hby)
      · exact Or.inr (List.mem_cons_of_mem y hmem)

lemma listMax_mem {l : List ℚ} (h : l ≠ []) : listMax l ∈ l := by
  cases l with
  | nil => exact absurd rfl h
  | cons x xs =>
      rcases foldl_max_mem xs x with heq | hmem
      · rw [listMax, heq]; exact List.mem_cons_self x xs
      · rw [listMax]; exact List.mem_cons_of_mem x hmem

/-- Decidable equality for `Except`, used to evaluate the embedded
operations on concrete inputs. -/
instance {e a : Type} [DecidableEq e] [DecidableEq a] : DecidableEq (Except e a) := fun x y =>
  match x, y with
  | .ok u, .ok v =>
      if h : u = v then isTrue (by rw [h]) else isFalse (fun hc => by cases hc; exact h rfl)
  | .error u, .error v =>
      if h : u = v then isTrue (by rw [h]) else isFalse (fun hc => by cases hc; exact h rfl)
  | .ok _, .error _ => isFalse (fun hc => by cases hc)
  | .error _, .ok _ => isFalse (fun hc => by cases hc)

/-! ## The visual similarity resolver and `compare_pills_vlm` -/

/-- The failure taxonomy of `VLMCompareError` as raised inside
`compare_pills_vlm`: a failed image download (`_download_image_bytes`,
vlm_compare.py:38-44), unreadable image bytes (vlm_compare.py:204-208), and
the app-level "No comparison result generated." (app.py:257). -/
inductive VlmError where
  | downloadError : VlmError
  | decodeError : VlmError
  | noResult : VlmError
deriving DecidableEq

/-- The dict produced by `_parse_response_payload`, restricted to the keys
`compare_pills_vlm` reads (vlm_compare.py:356-408).  `none` means the key is
absent; a present key carries a `PyVal`. -/
structure ParsedVlm where
  image_similarity : Option PyVal
  similarity_score : Option PyVal
  text_similarity : Option PyVal
  final_score : Option PyVal
  final_similarity_score : Option PyVal
  detected_text_reference : Option PyVal
  detected_text_test : Option PyVal
  active_ingredient : Option PyVal
  strength : Option PyVal
  reason : Option PyVal
deriving DecidableEq

/-- The outcome of the vision-language POST (vlm_compare.py:317-354):
a transport failure (`requests.RequestException`), a non-JSON response body
(`response.json()` raising `ValueError`), a JSON body that
`_parse_response_payload` rejects (raising `VLMCompareError`), or a
successfully parsed dict.  The dict extraction logic itself consumes remote
bytes and is modelled by its outcome. -/
inductive VlmOutcome where
  | transportError : VlmOutcome
  | notJson : VlmOutcome
  | parseError : VlmOutcome
  | parsed (p : ParsedVlm) : VlmOutcome

/-- The dict returned by `compare_pills_vlm` (its keys
`image_similarity`, `text_similarity`, `final_score`, `match`, `reason`;
`match` is a Lean keyword, hence `matched`). -/
structure PillResult where
  image_similarity : ℚ
  text_similarity : Option ℚ
  final_score : ℚ
  matched : Bool
  reason : PyVal
deriving DecidableEq

/-- The environment-derived configuration of `vlm_compare.py`:
`MATCH_THRESHOLD` (default 0.6) and `COMPOSITION_WEIGHT` (default 0.2),
lines 18-19. -/
structure VlmConfig where
  matchThreshold : ℚ
  compositionWeight : ℚ

def defaultVlmConfig : VlmConfig := ⟨0.6, 0.2⟩

/-- The external collaborators of `compare_pills_vlm`.  `download` is
`_download_image_bytes` (bytes or a raised error); `sha256Hex` the
`hashlib.sha256(...).hexdigest()` fingerprint; `decode` is
`ImageOps.exif_transpose(Image.open(io.BytesIO(b))).convert("RGB")`,
`none` when the bytes are not a valid image; `embedding` the outcome of
`_extract_image_embedding` (already flattened, `none` on any transport or
JSON failure); `sqrt` interprets `** 0.5`; `vlmCall` the outcome of the
vision-language POST; `hints` the composition-hints table loaded by
`_load_composition_hints`, with `[]` for unknown keys. -/
structure VlmEnv where
  P : PILPrims
  download : String → Except String (List Nat)
  sha256Hex : List Nat → List Nat
  decode : List Nat → Option Img
  apiKey : Option String
  embedding : List Nat → Option (List ℚ)
  sqrt : ℚ → ℚ
  vlmCall : VlmOutcome
  hints : String → List String

/-- `_compute_visual_similarity` (vlm_compare.py:200-233): short-circuit to
1.0 on equal content hashes (before any decoding); otherwise decode both
images (failure is fatal) and return the clamped maximum pair score over all
reference-crop × test-crop-rotation variants. -/
def computeVisualSimilarity (env : VlmEnv) (referenceBytes testBytes : List Nat) :
    Except VlmError ℚ :=
  if env.sha256Hex referenceBytes = env.sha256Hex testBytes then .ok 1
  else
    match env.decode referenceBytes, env.decode testBytes with
    | some ref, some test => .ok (clampQ (listMax (variantScores env.P ref test)))
    | _, _ => .error .decodeError

/-- `_compute_embedding_similarity` (vlm_compare.py:129-132): cosine
similarity of the two embeddings, each replaced by `[]` when unavailable
(Python `reference_embedding or []`). -/
def computeEmbeddingSimilarity (env : VlmEnv) (referenceBytes testBytes : List Nat) :
    Option ℚ :=
  cosineSimilarity env.sqrt ((env.embedding referenceBytes).getD [])
    ((env.embedding testBytes).getD [])

/-- The degraded result dicts of `compare_pills_vlm` (vlm_compare.py:282-288,
326-332, 337-343, 348-354): visual score only, match decided against
`MATCH_THRESHOLD`. -/
def fallbackResult (cfg : VlmConfig) (visual : ℚ) (reason : String) : PillResult :=
  { image_similarity := visual
    text_similarity := none
    final_score := visual
    matched := decide (cfg.matchThreshold ≤ visual)
    reason := .str reason none }

/-- `.strip().lower()` as applied to the medicine id for the
composition-hints lookup (vlm_compare.py:388). -/
def lowerTrim (s : String) : String := s.trim.map Char.toLower

/-- The text-similarity fusion of `compare_pills_vlm` (vlm_compare.py:361-371):
the structured `text_similarity` value merged with the token-overlap score
`extracted`; a `None` (or absent) structured value falls back to the
token-overlap score only when that is positive. -/
def fusedTextSimilarity (raw : PyVal) (extracted : ℚ) : Option ℚ :=
  match raw with
  | .null => if 0 < extracted then some extracted else none
  | v =>
      let t := clampScore v 0
      if 0 < extracted then some (clampQ (max t extracted)) else some t

/-- The successful tail of `compare_pills_vlm` (vlm_compare.py:356-409):
score extraction from the parsed dict, text-similarity fusion with the
token-overlap signal, the composition-consistency scorer, and the final
fusion and gate. -/
def parsedOutcome (cfg : VlmConfig) (hints : String → List String) (parsed : ParsedVlm)
    (visual : ℚ) (medicineId : Option String) : PillResult :=
  let imageSimilarity :=
    clampScore (pyGetD parsed.image_similarity (pyGetD parsed.similarity_score (.num visual)))
      visual
  let rawTextSimilarity := pyGet parsed.text_similarity
  let detectedTextReference := safeString (pyGet parsed.detected_text_reference)
  let detectedTextTest := safeString (pyGet parsed.detected_text_test)
  let extractedTextSimilarity := jaccardSimilarity detectedTextReference detectedTextTest
  let textSimilarity : Option ℚ := fusedTextSimilarity rawTextSimilarity extractedTextSimilarity
  let vlmFinal : ℚ :=
    if parsed.final_score.isSome || parsed.final_similarity_score.isSome then
      clampScore
        (pyGetD parsed.final_score (pyGetD parsed.final_similarity_score (.num imageSimilarity)))
        imageSimilarity
    else
      match textSimilarity with
      | none => imageSimilarity
      | some t => clampQ ((imageSimilarity + t) / 2)
  let activeIngredient := safeString (pyGet parsed.active_ingredient)
  let strengthText := safeString (pyGet parsed.strength)
  let expectedTerms :=
    tokenize (medicineId.getD "") ∪ tokenize activeIngredient ∪ tokenize strengthText ∪
      tokenize (String.intercalate " " (hints (lowerTrim (medicineId.getD ""))))
  let detectedUnion :=
    detectedTextReference ++ " " ++ detectedTextTest ++ " " ++ activeIngredient ++ " " ++
      strengthText
  let detectedTokens := tokenize detectedUnion
  let compositionSimilarity : ℚ :=
    if expectedTerms = ∅ then 0
    else clampQ (((expectedTerms ∩ detectedTokens).card : ℚ) / (expectedTerms.card : ℚ))
  let baseScore := clampQ (max vlmFinal visual)
  let finalScore := clampQ (baseScore + cfg.compositionWeight * compositionSimilarity)
  { image_similarity := clampQ (max imageSimilarity visual)
    text_similarity := textSimilarity
    final_score := finalScore
    matched := decide (cfg.matchThreshold ≤ finalScore)
    reason := pyGetD parsed.reason (.str "VLM + visual similarity + composition consistency." none) }

/-- The embedding merge of `compare_pills_vlm` (vlm_compare.py:290-292):
when the embedding similarity is available it can only raise the visual
score, via `max`; otherwise the visual score is kept. -/
def mergedVisual (env : VlmEnv) (referenceBytes testBytes : List Nat) (visual0 : ℚ) : ℚ :=
  match computeEmbeddingSimilarity env referenceBytes testBytes with
  | some emb => clampQ (max visual0 emb)
  | none => visual0

/-- `compare_pills_vlm` (vlm_compare.py:271-409).  A raised
`VLMCompareError` (failed download, undecodable image) is the `.error`
case; every external-signal failure degrades to a `fallbackResult`.  An
empty `HF_API_KEY` string is falsy in Python and is modelled as
`apiKey = none`. -/
def comparePillsVlm (cfg : VlmConfig) (env : VlmEnv)
    (referenceImageUrl testImageUrl : String) (medicineId : Option String) :
    Except VlmError PillResult :=
  match env.download referenceImageUrl with
  | .error _ => .error .downloadError
  | .ok referenceBytes =>
    match env.download testImageUrl with
    | .error _ => .error .downloadError
    | .ok testBytes =>
      match computeVisualSimilarity env referenceBytes testBytes with
      | .error e => .error e
      | .ok visual0 =>
        match env.apiKey with
        | none =>
            .ok (fallbackResult cfg visual0 "Fallback similarity used (HF API key missing).")
        | some _ =>
          let visual := mergedVisual env referenceBytes testBytes visual0
          match env.vlmCall with
          | .transportError =>
              .ok (fallbackResult cfg visual "Fallback similarity used (VLM request failed).")
          | .notJson =>
              .ok (fallbackResult cfg visual
                "Fallback similarity used (model response was not JSON).")
          | .parseError =>
              .ok (fallbackResult cfg visual "Fallback similarity used (unexpected model payload).")
          | .parsed parsed => .ok (parsedOutcome cfg env.hints parsed visual medicineId)

/-! ## The `/compare` endpoint (`app.py`) -/

/-- `MAX_ATTEMPTS` (app.py:21). -/
def MAX_ATTEMPTS : Nat := 10

/-- The environment-derived thresholds of app.py:22-23:
`APPROVAL_SCORE_THRESHOLD` (default 0.65) and `TEXT_SCORE_MIN_THRESHOLD`
(default 0.25). -/
structure AppConfig where
  approvalThreshold : ℚ
  textMinThreshold : ℚ

def defaultAppConfig : AppConfig := ⟨0.65, 0.25⟩

/-- `max(0, MAX_ATTEMPTS - attempts_used)` (app.py:207), as natural
truncated subtraction on a non-negative used count. -/
def attemptsRemaining (used : Nat) : Nat := MAX_ATTEMPTS - used

/-- The dict returned by `compare_pills_vlm` as `compare_images` reads it
(`.get` with fallbacks over the keys `image_similarity`, `similarity_score`,
`text_similarity`, `final_score`, `final_similarity_score`); the `match` and
`reason` keys are never read by `compare_images` and are omitted.  `none`
means the key is absent. -/
structure AppPayload where
  image_similarity : Option PyVal
  similarity_score : Option PyVal
  text_similarity : Option PyVal
  final_score : Option PyVal
  final_similarity_score : Option PyVal
deriving DecidableEq

/-- The `CompareResponse` model (app.py:68-76); `match` is a Lean keyword,
hence `matched`. -/
structure CompareResponse where
  similarity_score : ℚ
  text_similarity_score : Option ℚ
  final_similarity_score : ℚ
  matched : Bool
  attempts_used : Nat
  attempts_remaining : Nat
  approved : Bool
deriving DecidableEq

/-- The candidate score of one evaluation (app.py:248-250):
`_normalize_score(candidate.get("final_score", candidate.get("final_similarity_score", 0.0)))`. -/
def appFinalOf (p : AppPayload) : ℚ :=
  normalizeScore (pyGetD p.final_score (pyGetD p.final_similarity_score (.num 0)))

/-- The candidate loop of `compare_images` (app.py:242-254): evaluate each
reference URL in order, keeping the first candidate whose score is strictly
greater than the best seen so far (`candidate_score > best_score`, best
initialized to -1.0).  A raised `VLMCompareError` from any candidate aborts
the whole loop. -/
def candidateLoop (runVlm : String → Except VlmError AppPayload) :
    List String → Option (String × AppPayload) × ℚ →
      Except VlmError (Option (String × AppPayload) × ℚ)
  | [], acc => .ok acc
  | url :: rest, acc =>
      match runVlm url with
      | .error e => .error e
      | .ok payload =>
          if appFinalOf payload > acc.2 then
            candidateLoop runVlm rest (some (url, payload), appFinalOf payload)
          else candidateLoop runVlm rest acc

/-- The same selection, as a pure function of the already-evaluated
candidates; `candidateLoop_eq_selectLoop` ties it to the loop. -/
def selectLoop : List (String × AppPayload) → Option (String × AppPayload) × ℚ →
    Option (String × AppPayload) × ℚ
  | [], acc => acc
  | (url, payload) :: rest, acc =>
      if appFinalOf payload > acc.2 then
        selectLoop rest (some (url, payload), appFinalOf payload)
      else selectLoop rest acc

/-- Order-preserving deduplication, `list(dict.fromkeys(reference_urls))`
(app.py:225). -/
def dedupPreserve (l : List String) : List String :=
  l.foldl (fun acc u => if u ∈ acc then acc else acc ++ [u]) []

/-- `similarity_score` of the best payload (app.py:260-262):
`_normalize_score(best_payload.get("image_similarity", best_payload.get("similarity_score", 0.0)))`. -/
def appSimilarityOf (best : AppPayload) : ℚ :=
  normalizeScore (pyGetD best.image_similarity (pyGetD best.similarity_score (.num 0)))

/-- `text_similarity_score` of the best payload (app.py:264-265): `None`
stays absent, anything else is normalized. -/
def appTextOf (best : AppPayload) : Option ℚ :=
  match pyGet best.text_similarity with
  | .null => none
  | v => some (normalizeScore v)

/-- `final_similarity_score` of the best payload (app.py:267-274): the
reported final score when either final key is present, else the
visual/text blend, else the similarity score alone. -/
def appFinalScoreOf (best : AppPayload) : ℚ :=
  if best.final_score.isSome || best.final_similarity_score.isSome then
    normalizeScore
      (pyGetD best.final_score (pyGetD best.final_similarity_score (.num (appSimilarityOf best))))
  else
    match appTextOf best with
    | none => appSimilarityOf best
    | some t => clampQ ((appSimilarityOf best + t) / 2)

/-- The two match gates (app.py:276-282): score gate
`final ≥ APPROVAL_SCORE_THRESHOLD` and text gate
`similarity ≥ 0.9 or text is None or text ≥ TEXT_SCORE_MIN_THRESHOLD`. -/
def appMatchedOf (cfg : AppConfig) (best : AppPayload) : Bool :=
  decide (cfg.approvalThreshold ≤ appFinalScoreOf best) &&
    (decide ((9 : ℚ) / 10 ≤ appSimilarityOf best) || (appTextOf best).isNone ||
      decide (cfg.textMinThreshold ≤ (appTextOf best).getD 0))

/-- The response built from the best payload (app.py:259-283, 306-317):
score extraction with `.get` fallbacks, the final-score branches, the two
match gates, and the attempt bookkeeping after recording. -/
def scoredResponse (cfg : AppConfig) (usedAttempts : Nat) (best : AppPayload) :
    CompareResponse :=
  { similarity_score := appSimilarityOf best
    text_similarity_score := appTextOf best
    final_similarity_score := appFinalScoreOf best
    matched := appMatchedOf cfg best
    attempts_used := usedAttempts + 1
    attempts_remaining := MAX_ATTEMPTS - (usedAttempts + 1)
    approved := appMatchedOf cfg best }

/-- The zero/false response returned when the attempt budget is exhausted
(app.py:209-218): the pipeline is skipped, the used count is reported
unchanged. -/
def exhaustedResponse (usedAttempts : Nat) : CompareResponse :=
  { similarity_score := 0
    text_similarity_score := none
    final_similarity_score := 0
    matched := false
    attempts_used := usedAttempts
    attempts_remaining := attemptsRemaining usedAttempts
    approved := false }

/-- The zero/false response returned when the candidate loop raised
(app.py:285-288): the exception is caught and logged, the attempt is still
recorded and counted (app.py:306-317). -/
def caughtResponse (usedAttempts : Nat) : CompareResponse :=
  { similarity_score := 0
    text_similarity_score := none
    final_similarity_score := 0
    matched := false
    attempts_used := usedAttempts + 1
    attempts_remaining := MAX_ATTEMPTS - (usedAttempts + 1)
    approved := false }

/-- `compare_images` (app.py:203-317).  `usedAttempts` is the externally
supplied per-day attempt count; `explicitRef` the optional
`reference_image_url` of the request; `resolvedRefs` the storage
collaborator's ordered URL list; `runVlm` the evaluation of
`compare_pills_vlm` against one candidate reference URL (the test image URL
and medicine id are fixed within one request).  The `.error` case is the
only `HTTPException` (status 404, app.py:227-228); a `VLMCompareError`
raised by a candidate — and the unreachable "no comparison result" case —
are caught (app.py:285-288) and produce a successful zero response. -/
def compareImages (cfg : AppConfig) (usedAttempts : Nat) (explicitRef : Option String)
    (resolvedRefs : List String) (runVlm : String → Except VlmError AppPayload) :
    Except Nat CompareResponse :=
  if attemptsRemaining usedAttempts = 0 then .ok (exhaustedResponse usedAttempts)
  else
    let referenceUrls := dedupPreserve (explicitRef.toList ++ resolvedRefs)
    if referenceUrls = [] then .error 404
    else
      match candidateLoop runVlm referenceUrls (none, -1) with
      | .ok (some (_, best), _) => .ok (scoredResponse cfg usedAttempts best)
      | _ => .ok (caughtResponse usedAttempts)

/-! ## Claim theorems -/

/-- C4: for feature scores pixel, histogram, edge, hash each in [0,1], the
pair scorer returns the weighted sum
`0.35·pixel + 0.25·histogram + 0.20·edge + 0.20·hash`, with a boost of 0.08
(clamped to 1.0) added iff the unboosted weighted sum is at least 0.85, and
the result never exceeds 1.0. -/
theorem c4_pair_scorer_blend (p h e a : ℚ)
    (hp0 : 0 ≤ p) (hp1 : p ≤ 1) (hh0 : 0 ≤ h) (hh1 : h ≤ 1)
    (he0 : 0 ≤ e) (he1 : e ≤ 1) (ha0 : 0 ≤ a) (ha1 : a ≤ 1) :
    (0.85 ≤ 0.35 * p + 0.25 * h + 0.20 * e + 0.20 * a →
      blendScores p h e a = min 1 (0.35 * p + 0.25 * h + 0.20 * e + 0.20 * a + 0.08)) ∧
    (0.35 * p + 0.25 * h + 0.20 * e + 0.20 * a < 0.85 →
      blendScores p h e a = 0.35 * p + 0.25 * h + 0.20 * e + 0.20 * a) ∧
    blendScores p h e a ≤ 1 := by
  have hw0 : (0 : ℚ) ≤ 0.35 * p + 0.25 * h + 0.20 * e + 0.20 * a := by
    have := mul_nonneg (by norm_num : (0:ℚ) ≤ 0.35) hp0
    have := mul_nonneg (by norm_num : (0:ℚ) ≤ 0.25) hh0
    have := mul_nonneg (by norm_num : (0:ℚ) ≤ 0.20) he0
    have := mul_nonneg (by norm_num : (0:ℚ) ≤ 0.20) ha0
    linarith
  refine ⟨fun hboost => ?_, fun hlow => ?_, clampQ_le_one _⟩
  · simp only [blendScores]
    rw [if_pos hboost]
    exact clampQ_eq_self (le_min zero_le_one (by linarith)) (min_le_left 1 _)
  · simp only [blendScores]
    rw [if_neg (not_le.mpr hlow)]
    exact clampQ_eq_self hw0 (by linarith)

/-- Witness for C4 at pixel = histogram = edge = hash = 1: the weighted sum
is 1, the boost branch applies, and the boosted value is clamped to 1. -/
theorem c4_witness :
    blendScores 1 1 1 1 = min 1 (0.35 * 1 + 0.25 * 1 + 0.20 * 1 + 0.20 * 1 + 0.08) :=
  (c4_pair_scorer_blend 1 1 1 1 (by norm_num) (by norm_num) (by norm_num) (by norm_num)
    (by norm_num) (by norm_num) (by norm_num) (by norm_num)).1 (by norm_num)

/-- C5: for byte-identical image contents, the visual similarity resolver
returns exactly 1.0 immediately, for every environment — in particular even
when the bytes do not decode as a valid image, so the variant search is
never reached. -/
theorem c5_byte_identical (env : VlmEnv) (referenceBytes testBytes : List Nat)
    (h : referenceBytes = testBytes) :
    computeVisualSimilarity env referenceBytes testBytes = .ok 1 := by
  subst h
  unfold computeVisualSimilarity
  rw [if_pos rfl]

/-- A trivial environment whose decoder rejects every byte string. -/
def undecodableEnv : VlmEnv :=
  { P := ⟨fun _ _ => [0], fun _ => [0], fun _ => [], fun _ => (1, 1)⟩
    download := fun _ => .ok []
    sha256Hex := id
    decode := fun _ => none
    apiKey := none
    embedding := fun _ => none
    sqrt := id
    vlmCall := .transportError
    hints := fun _ => [] }

/-- Witness for C5: identical bytes score 1.0 even in an environment where
nothing decodes. -/
theorem c5_witness : computeVisualSimilarity undecodableEnv [1, 2, 3] [1, 2, 3] = .ok 1 :=
  c5_byte_identical undecodableEnv [1, 2, 3] [1, 2, 3] rfl

/-- C3: the attempt gate computes `remaining = max(0, max - used)`, and a
request arriving with zero remaining attempts is answered — for every
configuration, reference input and scoring oracle, i.e. without running the
pipeline — by the zero/false response with `attempts_used` unchanged and
`attempts_remaining = 0`. -/
theorem c3_attempt_gate (used : Nat) :
    ((attemptsRemaining used : ℤ) = max 0 ((MAX_ATTEMPTS : ℤ) - (used : ℤ))) ∧
    (attemptsRemaining used = 0 →
      ∀ (cfg : AppConfig) (explicitRef : Option String) (resolvedRefs : List String)
        (runVlm : String → Except VlmError AppPayload),
        compareImages cfg used explicitRef resolvedRefs runVlm = .ok (exhaustedResponse used) ∧
        (exhaustedResponse used).similarity_score = 0 ∧
        (exhaustedResponse used).matched = false ∧
        (exhaustedResponse used).attempts_used = used ∧
        (exhaustedResponse used).attempts_remaining = 0) := by
  constructor
  · unfold attemptsRemaining MAX_ATTEMPTS
    omega
  · intro hzero cfg explicitRef resolvedRefs runVlm
    refine ⟨?_, rfl, rfl, rfl, ?_⟩
    · unfold compareImages
      rw [if_pos hzero]
    · show attemptsRemaining used = 0
      exact hzero

/-- Witness for C3 at `used_attempts = 10 = MAX_ATTEMPTS`: the response is
the zero/false result with `attempts_used = 10` and `attempts_remaining = 0`,
independent of the (here always-failing) scoring oracle. -/
theorem c3_witness :
    compareImages defaultAppConfig 10 (some "A") []
      (fun _ => .error .downloadError) = .ok (exhaustedResponse 10) ∧
    (exhaustedResponse 10).attempts_used = 10 ∧
    (exhaustedResponse 10).attempts_remaining = 0 := by
  obtain ⟨h1, _, _, h4, h5⟩ :=
    (c3_attempt_gate 10).2 (by decide) defaultAppConfig (some "A") []
      (fun _ => .error .downloadError)
  exact ⟨h1, h4, h5⟩

/-- The common-prefix length used by `_cosine_similarity`
(vlm_compare.py:94). -/
def commonSize (left right : List ℚ) : Nat := min left.length right.length

/-- Sum of squares of a vector, the radicand of its Euclidean norm
(vlm_compare.py:100-101). -/
def sumSquares (xs : List ℚ) : ℚ := (xs.map (fun a => a * a)).sum

lemma sumSquares_nonneg (xs : List ℚ) : 0 ≤ sumSquares xs := by
  refine List.sum_nonneg ?_
  intro x hx
  obtain ⟨a, _, rfl⟩ := List.mem_map.mp hx
  exact mul_self_nonneg a

/-- C10: the cosine-similarity helper is total and never divides by zero:
it returns `none` exactly when a vector is empty, the common-length prefix
is empty, or either prefix has zero Euclidean norm; otherwise it returns
the cosine remapped by `(cosine + 1) / 2` and clamped into [0,1], with both
norms (hence the divisor) nonzero.  `sqrt` is any square-root
interpretation vanishing exactly at 0 on nonnegative inputs. -/
theorem c10_cosine_total (sqrt : ℚ → ℚ) (left right : List ℚ)
    (hsqrt : ∀ x : ℚ, 0 ≤ x → (sqrt x = 0 ↔ x = 0)) :
    (cosineSimilarity sqrt left right = none ↔
      left = [] ∨ right = [] ∨ commonSize left right = 0 ∨
      sumSquares (left.take (commonSize left right)) = 0 ∨
      sumSquares (right.take (commonSize left right)) = 0) ∧
    (∀ v, cosineSimilarity sqrt left right = some v →
      0 ≤ v ∧ v ≤ 1 ∧
      sqrt (sumSquares (left.take (commonSize left right))) *
        sqrt (sumSquares (right.take (commonSize left right))) ≠ 0 ∧
      v = clampQ
        (((((left.take (commonSize left right)).zip
              (right.take (commonSize left right))).map (fun p => p.1 * p.2)).sum /
            (sqrt (sumSquares (left.take (commonSize left right))) *
              sqrt (sumSquares (right.take (commonSize left right)))) + 1) / 2)) := by
  have hL := hsqrt _ (sumSquares_nonneg (left.take (commonSize left right)))
  have hR := hsqrt _ (sumSquares_nonneg (right.take (commonSize left right)))
  simp only [cosineSimilarity]
  by_cases hempty : left = [] ∨ right = []
  · rw [if_pos hempty]
    refine ⟨⟨fun _ => ?_, fun _ => rfl⟩, fun v hv => by cases hv⟩
    rcases hempty with h | h
    · exact Or.inl h
    · exact Or.inr (Or.inl h)
  · rw [if_neg hempty]
    by_cases hsize : min left.length right.length = 0
    · rw [if_pos hsize]
      exact ⟨⟨fun _ => Or.inr (Or.inr (Or.inl hsize)), fun _ => rfl⟩, fun v hv => by cases hv⟩
    · rw [if_neg hsize]
      by_cases hnorm :
          sqrt (((left.take (min left.length right.length)).map (fun a => a * a)).sum) = 0 ∨
          sqrt (((right.take (min left.length right.length)).map (fun b => b * b)).sum) = 0
      · rw [if_pos hnorm]
        refine ⟨⟨fun _ => ?_, fun _ => rfl⟩, fun v hv => by cases hv⟩
        rcases hnorm with h | h
        · exact Or.inr (Or.inr (Or.inr (Or.inl (hL.mp h))))
        · exact Or.inr (Or.inr (Or.inr (Or.inr (hR.mp h))))
      · rw [if_neg hnorm]
        push_neg at hempty hnorm
        refine ⟨⟨(fun hv => by cases hv), fun habs => ?_⟩, fun v hv => ?_⟩
        · rcases habs with h | h | h | h | h
          · exact absurd h hempty.1
          · exact absurd h hempty.2
          · exact absurd h hsize
          · exact absurd (hL.mpr h) hnorm.1
          · exact absurd (hR.mpr h) hnorm.2
        · injection hv with hv2
          subst hv2
          exact ⟨clampQ_nonneg _, clampQ_le_one _, mul_ne_zero hnorm.1 hnorm.2, rfl⟩

/-- Witness for C10: a zero vector against a nonzero one has a zero-norm
common prefix, so the embedding signal is reported absent. -/
theorem c10_witness : cosineSimilarity id [(0 : ℚ)] [1] = none :=
  (c10_cosine_total id [0] [1] (fun x hx => Iff.rfl)).1.mpr
    (Or.inr (Or.inr (Or.inr (Or.inl (by norm_num [sumSquares, commonSize])))))

/-- The contested content of claim C1, as the spec states it: a
`DecodeError`/`DownloadError` raised while evaluating the candidate
references — here, an oracle on which every candidate (in particular the
selected pair) raises — produces a user-visible failure status of
`/compare`, i.e. the endpoint result is an `HTTPException` rather than a
successful response. -/
def FatalImageErrorSurfaces : Prop :=
  ∀ (cfg : AppConfig) (used : Nat) (explicitRef : Option String)
    (resolvedRefs : List String) (e : VlmError),
    e ≠ .noResult →
    attemptsRemaining used ≠ 0 →
    dedupPreserve (explicitRef.toList ++ resolvedRefs) ≠ [] →
    ∃ code, compareImages cfg used explicitRef resolvedRefs (fun _ => .error e) = .error code

/-- Counterexample to C1: a download failure on the selected (only)
reference pair is caught by `compare_images` (app.py:285-288), which still
returns a successful zero-score response — not a failure status. -/
theorem c1_counterexample : ¬ FatalImageErrorSurfaces := by
  intro hclaim
  obtain ⟨code, hcode⟩ := hclaim defaultAppConfig 0 (some "A") [] .downloadError
    (by decide) (by decide) (by decide)
  have hok : compareImages defaultAppConfig 0 (some "A") []
      (fun _ => .error VlmError.downloadError) = .ok (caughtResponse 0) := rfl
  rw [hok] at hcode
  cases hcode

/-- C1 (amended): only the empty-reference-list condition produces a
user-visible failure of `/compare`, and that failure is HTTP 404; every
other condition — download/decode failures on the selected pair included,
since `compare_pills_vlm`'s errors are caught, and embedding/VLM transport
failures, malformed JSON and schema mismatches, which already degrade
inside `compare_pills_vlm` — yields a successful response. -/
theorem c1_failure_statuses (cfg : AppConfig) (used : Nat) (explicitRef : Option String)
    (resolvedRefs : List String) (runVlm : String → Except VlmError AppPayload) :
    ((∃ code, compareImages cfg used explicitRef resolvedRefs runVlm = .error code) ↔
      attemptsRemaining used ≠ 0 ∧ dedupPreserve (explicitRef.toList ++ resolvedRefs) = []) ∧
    (∀ code, compareImages cfg used explicitRef resolvedRefs runVlm = .error code →
      code = 404) := by
  unfold compareImages
  by_cases h1 : attemptsRemaining used = 0
  · rw [if_pos h1]
    refine ⟨⟨(fun hex => ?_), fun hrhs => absurd h1 hrhs.1⟩, fun code hcode => by cases hcode⟩
    obtain ⟨code, hcode⟩ := hex
    cases hcode
  · rw [if_neg h1]
    by_cases h2 : dedupPreserve (explicitRef.toList ++ resolvedRefs) = []
    · rw [if_pos h2]
      exact ⟨⟨fun _ => ⟨h1, h2⟩, fun _ => ⟨404, rfl⟩⟩,
        fun code hcode => (Except.error.injEq _ _ ▸ hcode).symm ▸ rfl⟩
    · rw [if_neg h2]
      rcases hloop : candidateLoop runVlm (dedupPreserve (explicitRef.toList ++ resolvedRefs))
          (none, -1) with e | acc
      · exact ⟨⟨(fun hex => by obtain ⟨c, hc⟩ := hex; cases hc), fun hrhs => absurd hrhs.2 h2⟩,
          fun code hcode => by cases hcode⟩
      · obtain ⟨obest, s⟩ := acc
        cases obest with
        | none =>
            exact ⟨⟨(fun hex => by obtain ⟨c, hc⟩ := hex; cases hc),
              fun hrhs => absurd hrhs.2 h2⟩, fun code hcode => by cases hcode⟩
        | some rb =>
            obtain ⟨u, best⟩ := rb
            exact ⟨⟨(fun hex => by obtain ⟨c, hc⟩ := hex; cases hc),
              fun hrhs => absurd hrhs.2 h2⟩, fun code hcode => by cases hcode⟩

/-- Witness for C1: with no explicit reference and an empty resolved list,
`/compare` fails with HTTP 404 (the `NoReferenceAvailable` condition). -/
theorem c1_witness :
    compareImages defaultAppConfig 0 none [] (fun _ => .error .downloadError) = .error 404 := by
  obtain ⟨code, hcode⟩ :=
    (c1_failure_statuses defaultAppConfig 0 none [] (fun _ => .error .downloadError)).1.mpr
      ⟨by decide, rfl⟩
  have h404 :=
    (c1_failure_statuses defaultAppConfig 0 none [] (fun _ => .error .downloadError)).2 code hcode
  rw [h404] at hcode
  exact hcode

lemma appFinalOf_nonneg (p : AppPayload) : 0 ≤ appFinalOf p := clampQ_nonneg _

lemma matchGate_iff (thr tmin sim final : ℚ) (text : Option ℚ) :
    (decide (thr ≤ final) &&
        (decide ((9 : ℚ) / 10 ≤ sim) || text.isNone || decide (tmin ≤ text.getD 0))) = true ↔
      (thr ≤ final ∧
        ((9 : ℚ) / 10 ≤ sim ∨ text = none ∨ ∃ t, text = some t ∧ tmin ≤ t)) := by
  cases text with
  | none => simp
  | some t =>
      simp only [Option.isNone_some, Bool.or_false, Option.getD_some, Bool.and_eq_true,
        Bool.or_eq_true, decide_eq_true_eq, Option.some.injEq, reduceCtorEq]
      constructor
      · rintro ⟨hf, hs | ht⟩
        · exact ⟨hf, Or.inl hs⟩
        · exact ⟨hf, Or.inr (Or.inr ⟨t, rfl, ht⟩)⟩
      · rintro ⟨hf, hs | hnone | ⟨u, hu, hut⟩⟩
        · exact ⟨hf, Or.inl hs⟩
        · cases hnone
        · cases hu
          exact ⟨hf, Or.inr hut⟩

/-- C2: whenever the scoring pipeline runs to completion (attempts remain
and the candidate loop produced a best payload), the response is the scored
response, and its `match` field is true iff both gates hold: the final score
reaches the approval threshold (inclusively), and either the image
similarity is at least 0.9, or the text similarity is absent, or the text
similarity reaches the text threshold. -/
theorem c2_match_gates (cfg : AppConfig) (used : Nat) (explicitRef : Option String)
    (resolvedRefs : List String) (runVlm : String → Except VlmError AppPayload)
    (url : String) (best : AppPayload) (s : ℚ)
    (h1 : attemptsRemaining used ≠ 0)
    (h2 : candidateLoop runVlm (dedupPreserve (explicitRef.toList ++ resolvedRefs)) (none, -1) =
      .ok (some (url, best), s)) :
    compareImages cfg used explicitRef resolvedRefs runVlm =
      .ok (scoredResponse cfg used best) ∧
    ((scoredResponse cfg used best).matched = true ↔
      (cfg.approvalThreshold ≤ (scoredResponse cfg used best).final_similarity_score ∧
        ((9 : ℚ) / 10 ≤ (scoredResponse cfg used best).similarity_score ∨
          (scoredResponse cfg used best).text_similarity_score = none ∨
          ∃ t, (scoredResponse cfg used best).text_similarity_score = some t ∧
            cfg.textMinThreshold ≤ t))) := by
  have hne : dedupPreserve (explicitRef.toList ++ resolvedRefs) ≠ [] := by
    intro hnil
    rw [hnil] at h2
    cases h2
  constructor
  · unfold compareImages
    rw [if_neg h1, if_neg hne, h2]
  · show (appMatchedOf cfg best = true) ↔ _
    exact matchGate_iff cfg.approvalThreshold cfg.textMinThreshold (appSimilarityOf best)
      (appFinalScoreOf best) (appTextOf best)

/-- The payload used by the C2 witness: image similarity 1, no text
similarity, final score exactly the default approval threshold 0.65. -/
def c2Payload : AppPayload :=
  { image_similarity := some (.num 1)
    similarity_score := none
    text_similarity := none
    final_score := some (.num 0.65)
    final_similarity_score := none }

/-- Witness for C2 at a final score exactly equal to the approval
threshold: the inclusive boundary yields `match = true`. -/
theorem c2_witness :
    compareImages defaultAppConfig 0 (some "A") [] (fun _ => .ok c2Payload) =
      .ok (scoredResponse defaultAppConfig 0 c2Payload) ∧
    (scoredResponse defaultAppConfig 0 c2Payload).final_similarity_score =
      defaultAppConfig.approvalThreshold ∧
    (scoredResponse defaultAppConfig 0 c2Payload).matched = true := by
  have hloop : candidateLoop (fun _ => .ok c2Payload) ["A"] (none, -1) =
      .ok (some ("A", c2Payload), appFinalOf c2Payload) := by
    simp only [candidateLoop]
    rw [if_pos (lt_of_lt_of_le (by norm_num) (appFinalOf_nonneg c2Payload))]
  have h := c2_match_gates defaultAppConfig 0 (some "A") [] (fun _ => .ok c2Payload)
    "A" c2Payload (appFinalOf c2Payload) (by decide) hloop
  have hfinal : (scoredResponse defaultAppConfig 0 c2Payload).final_similarity_score =
      defaultAppConfig.approvalThreshold := by
    show appFinalScoreOf c2Payload = defaultAppConfig.approvalThreshold
    norm_num [appFinalScoreOf, appSimilarityOf, c2Payload, normalizeScore, pyGetD,
      PyVal.toFloat?, clampQ, defaultAppConfig]
  have hsim : (9 : ℚ) / 10 ≤ (scoredResponse defaultAppConfig 0 c2Payload).similarity_score := by
    show (9 : ℚ) / 10 ≤ appSimilarityOf c2Payload
    norm_num [appSimilarityOf, c2Payload, normalizeScore, pyGetD, PyVal.toFloat?, clampQ]
  exact ⟨h.1, hfinal, h.2.mpr ⟨le_of_eq hfinal.symm, Or.inl hsim⟩⟩

lemma candidateLoop_eq_selectLoop (runVlm : String → Except VlmError AppPayload)
    (f : String → AppPayload) (l : List String) (acc : Option (String × AppPayload) × ℚ)
    (hok : ∀ u ∈ l, runVlm u = .ok (f u)) :
    candidateLoop runVlm l acc = .ok (selectLoop (l.map (fun u => (u, f u))) acc) := by
  induction l generalizing acc with
  | nil => rfl
  | cons u rest ih =>
      have hu := hok u (List.mem_cons_self u rest)
      have hrest : ∀ v ∈ rest, runVlm v = .ok (f v) :=
        fun v hv => hok v (List.mem_cons_of_mem u hv)
      simp only [candidateLoop, List.map_cons, selectLoop, hu]
      split_ifs with hgt
      · exact ih _ hrest
      · exact ih _ hrest

lemma selectLoop_spec (l : List (String × AppPayload)) (cur : String × AppPayload) :
    ∃ r, selectLoop l (some cur, appFinalOf cur.2) = (some r, appFinalOf r.2) ∧
      appFinalOf cur.2 ≤ appFinalOf r.2 ∧
      (∀ e ∈ l, appFinalOf e.2 ≤ appFinalOf r.2) ∧
      (r = cur ∨ ∃ pre post, l = pre ++ r :: post ∧ appFinalOf cur.2 < appFinalOf r.2 ∧
        ∀ e ∈ pre, appFinalOf e.2 < appFinalOf r.2) := by
  induction l generalizing cur with
  | nil => exact ⟨cur, rfl, le_refl _, by simp, Or.inl rfl⟩
  | cons e rest ih =>
      obtain ⟨eu, ep⟩ := e
      by_cases hgt : appFinalOf ep > appFinalOf cur.2
      · obtain ⟨r, hsel, hle, hall, hdec⟩ := ih (eu, ep)
        refine ⟨r, ?_, le_of_lt (lt_of_lt_of_le hgt hle), ?_, ?_⟩
        · simp only [selectLoop]
          rw [if_pos hgt]
          exact hsel
        · intro x hx
          rcases List.mem_cons.mp hx with rfl | hmem
          · exact hle
          · exact hall x hmem
        · rcases hdec with rfl | ⟨pre, post, hsplit, hlt, hpre⟩
          · exact Or.inr ⟨[], rest, rfl, hgt, by simp⟩
          · refine Or.inr ⟨(eu, ep) :: pre, post, by rw [hsplit, List.cons_append],
              lt_of_lt_of_le hgt hle, ?_⟩
            intro x hx
            rcases List.mem_cons.mp hx with rfl | hmem
            · exact hlt
            · exact hpre x hmem
      · obtain ⟨r, hsel, hle, hall, hdec⟩ := ih cur
        have hep : appFinalOf ep ≤ appFinalOf cur.2 := not_lt.mp hgt
        refine ⟨r, ?_, hle, ?_, ?_⟩
        · simp only [selectLoop]
          rw [if_neg hgt]
          exact hsel
        · intro x hx
          rcases List.mem_cons.mp hx with rfl | hmem
          · exact le_trans hep hle
          · exact hall x hmem
        · rcases hdec with rfl | ⟨pre, post, hsplit, hlt, hpre⟩
          · exact Or.inl rfl
          · refine Or.inr ⟨(eu, ep) :: pre, post, by rw [hsplit, List.cons_append], hlt, ?_⟩
            intro x hx
            rcases List.mem_cons.mp hx with rfl | hmem
            · exact lt_of_le_of_lt hep hlt
            · exact hpre x hmem

/-- C7: over the ordered, deduplicated candidate list, the candidate loop
keeps the evaluation with the strictly greatest final score — the selected
candidate's score is maximal and every earlier candidate scored strictly
less, so equal scores resolve to the first-seen candidate — and an empty
candidate list is reported as the distinct HTTP 404 "no reference
available" failure rather than as any scored response. -/
theorem c7_candidate_selector (cfg : AppConfig) (used : Nat) (explicitRef : Option String)
    (resolvedRefs : List String) (runVlm : String → Except VlmError AppPayload)
    (f : String → AppPayload) (hok : ∀ u, runVlm u = .ok (f u)) :
    (attemptsRemaining used ≠ 0 → dedupPreserve (explicitRef.toList ++ resolvedRefs) = [] →
      compareImages cfg used explicitRef resolvedRefs runVlm = .error 404) ∧
    (∀ u0 rest, dedupPreserve (explicitRef.toList ++ resolvedRefs) = u0 :: rest →
      ∃ r, candidateLoop runVlm (u0 :: rest) (none, -1) = .ok (some r, appFinalOf r.2) ∧
        (∀ u ∈ u0 :: rest, appFinalOf (f u) ≤ appFinalOf r.2) ∧
        ∃ pre post, (u0 :: rest).map (fun u => (u, f u)) = pre ++ r :: post ∧
          ∀ e ∈ pre, appFinalOf e.2 < appFinalOf r.2) := by
  constructor
  · intro h1 h2
    unfold compareImages
    rw [if_neg h1, if_pos h2]
  · intro u0 rest _
    have hloop := candidateLoop_eq_selectLoop runVlm f (u0 :: rest) (none, -1)
      (fun u _ => hok u)
    have hfirst : selectLoop ((u0 :: rest).map (fun u => (u, f u))) (none, -1) =
        selectLoop (rest.map (fun u => (u, f u))) (some (u0, f u0), appFinalOf (u0, f u0).2) := by
      simp only [List.map_cons, selectLoop]
      rw [if_pos (lt_of_lt_of_le (by norm_num) (appFinalOf_nonneg (f u0)))]
    obtain ⟨r, hsel, hle, hall, hdec⟩ := selectLoop_spec (rest.map (fun u => (u, f u))) (u0, f u0)
    refine ⟨r, ?_, ?_, ?_⟩
    · rw [hloop, hfirst, hsel]
    · intro u hu
      rcases List.mem_cons.mp hu with rfl | hmem
      · exact hle
      · exact hall (u, f u) (List.mem_map_of_mem _ hmem)
    · rcases hdec with rfl | ⟨pre, post, hsplit, hlt, hpre⟩
      · exact ⟨[], rest.map (fun u => (u, f u)), by rw [List.map_cons]; rfl, by simp⟩
      · refine ⟨(u0, f u0) :: pre, post, ?_, ?_⟩
        · rw [List.map_cons, hsplit, List.cons_append]
        · intro x hx
          rcases List.mem_cons.mp hx with rfl | hmem
          · exact hlt
          · exact hpre x hmem

/-- The payload both candidates of the C7 witness produce: equal final
scores 0.5. -/
def c7Payload : AppPayload :=
  { image_similarity := some (.num 0.5)
    similarity_score := none
    text_similarity := none
    final_score := some (.num 0.5)
    final_similarity_score := none }

/-- Witness for C7: over reference URLs [A, B] with equal final scores the
loop selects A, the first-seen candidate. -/
theorem c7_witness :
    (∃ r, candidateLoop (fun _ => .ok c7Payload) ["A", "B"] (none, -1) =
        .ok (some r, appFinalOf r.2) ∧
      (∀ u ∈ ["A", "B"], appFinalOf c7Payload ≤ appFinalOf r.2) ∧
      ∃ pre post, (["A", "B"].map (fun u => (u, c7Payload))) = pre ++ r :: post ∧
        ∀ e ∈ pre, appFinalOf e.2 < appFinalOf r.2) ∧
    candidateLoop (fun _ => .ok c7Payload) ["A", "B"] (none, -1) =
      .ok (some ("A", c7Payload), appFinalOf c7Payload) := by
  constructor
  · obtain ⟨r, hr1, hr2, hr3⟩ :=
      (c7_candidate_selector defaultAppConfig 0 (some "A") ["B"] (fun _ => .ok c7Payload)
        (fun _ => c7Payload) (fun _ => rfl)).2 "A" ["B"] rfl
    exact ⟨r, hr1, fun u hu => hr2 u hu, hr3⟩
  · have h1 : appFinalOf c7Payload > (-1 : ℚ) :=
      lt_of_lt_of_le (by norm_num) (appFinalOf_nonneg _)
    have h2 : ¬ (appFinalOf c7Payload > appFinalOf c7Payload) := lt_irrefl _
    simp only [candidateLoop]
    rw [if_pos h1, if_neg h2]

lemma computePairSimilarity_nonneg (P : PILPrims) (a b : Img) :
    0 ≤ computePairSimilarity P a b := by
  unfold computePairSimilarity blendScores
  exact clampQ_nonneg _

lemma computePairSimilarity_le_one (P : PILPrims) (a b : Img) :
    computePairSimilarity P a b ≤ 1 := by
  unfold computePairSimilarity blendScores
  exact clampQ_le_one _

lemma headPair_mem_variantScores (P : PILPrims) (ref test : Img) :
    computePairSimilarity P ref (Img.rotate test 0) ∈ variantScores P ref test := by
  unfold variantScores
  refine List.mem_flatMap.mpr ⟨ref, ?_, ?_⟩
  · simp [multiCrops]
  · refine List.mem_map.mpr ⟨Img.rotate test 0, ?_, rfl⟩
    unfold testVariantsOf
    refine List.mem_flatMap.mpr ⟨test, ?_, ?_⟩
    · simp [multiCrops]
    · exact List.mem_map.mpr ⟨0, by simp, rfl⟩

lemma variantScores_bounds (P : PILPrims) (ref test : Img) :
    ∀ s ∈ variantScores P ref test, 0 ≤ s ∧ s ≤ 1 := by
  intro s hs
  unfold variantScores at hs
  obtain ⟨rv, _, hmap⟩ := List.mem_flatMap.mp hs
  obtain ⟨tv, _, rfl⟩ := List.mem_map.mp hmap
  exact ⟨computePairSimilarity_nonneg P rv tv, computePairSimilarity_le_one P rv tv⟩

/-- C6: on non-identical bytes (and with no content-hash collision on this
pair) that decode as valid images, the visual similarity resolver returns
exactly the maximum of the pair scorer over all generated variant pairs —
the result is an element of the variant score list bounding all other
elements — and in particular is at least the pair scorer's score on the
unrotated, full-crop variant pair. -/
theorem c6_visual_resolver_max (env : VlmEnv) (referenceBytes testBytes : List Nat)
    (ref test : Img)
    (hneq : referenceBytes ≠ testBytes)
    (hcoll : env.sha256Hex referenceBytes = env.sha256Hex testBytes → referenceBytes = testBytes)
    (href : env.decode referenceBytes = some ref)
    (htest : env.decode testBytes = some test) :
    ∃ m, computeVisualSimilarity env referenceBytes testBytes = .ok m ∧
      m ∈ variantScores env.P ref test ∧
      (∀ s ∈ variantScores env.P ref test, s ≤ m) ∧
      computePairSimilarity env.P ref (Img.rotate test 0) ≤ m := by
  have hsha : env.sha256Hex referenceBytes ≠ env.sha256Hex testBytes :=
    fun h => hneq (hcoll h)
  have hne : variantScores env.P ref test ≠ [] :=
    List.ne_nil_of_mem (headPair_mem_variantScores env.P ref test)
  have hmem := listMax_mem hne
  have hbounds := variantScores_bounds env.P ref test _ hmem
  refine ⟨listMax (variantScores env.P ref test), ?_, hmem,
    fun s hs => listMax_ge hs, listMax_ge (headPair_mem_variantScores env.P ref test)⟩
  unfold computeVisualSimilarity
  rw [if_neg hsha, href, htest]
  exact congrArg Except.ok (clampQ_eq_self hbounds.1 hbounds.2)

/-- The environment of the C6 witness: trivial measurements, identity
content hash, and a decoder mapping byte strings to source images by
length. -/
def c6Env : VlmEnv :=
  { P := ⟨fun _ _ => [0], fun _ => [0], fun _ => [], fun _ => (1, 1)⟩
    download := fun _ => .ok []
    sha256Hex := id
    decode := fun b => some (Img.src b.length)
    apiKey := none
    embedding := fun _ => none
    sqrt := id
    vlmCall := .transportError
    hints := fun _ => [] }

/-- Witness for C6 on concrete distinct decodable byte strings. -/
theorem c6_witness :
    ∃ m, computeVisualSimilarity c6Env [0] [0, 0] = .ok m ∧
      m ∈ variantScores c6Env.P (Img.src 1) (Img.src 2) ∧
      (∀ s ∈ variantScores c6Env.P (Img.src 1) (Img.src 2), s ≤ m) ∧
      computePairSimilarity c6Env.P (Img.src 1) (Img.rotate (Img.src 2) 0) ≤ m :=
  c6_visual_resolver_max c6Env [0] [0, 0] (Img.src 1) (Img.src 2)
    (by decide) (fun h => absurd h (by decide)) rfl rfl

/-- Whether an image term was produced, at any preprocessing stage, by the
`_normalize_canvas` letterbox. -/
def containsCanvas : Img → Bool
  | .src _ => false
  | .normalizeCanvas _ _ => true
  | .resize i _ _ => containsCanvas i
  | .convertL i => containsCanvas i
  | .findEdges i => containsCanvas i
  | .crop i _ _ _ _ => containsCanvas i
  | .rotate i _ => containsCanvas i

/-- Claim C8 as stated: every feature extractor receives both images
letterboxed onto the fixed square canvas — semantically, the pair scorer
depends on the pixel-level measurement primitives only through letterboxed
images, so two primitive interpretations agreeing on all letterboxed images
yield the same pair score. -/
def ExtractorsSeeOnlyLetterboxed : Prop :=
  ∀ (P Q : PILPrims) (ref test : Img),
    (∀ a b, containsCanvas a = true → containsCanvas b = true →
      P.meanDiffChannels a b = Q.meanDiffChannels a b) →
    (∀ a, containsCanvas a = true → P.histogram a = Q.histogram a) →
    (∀ a, containsCanvas a = true → P.getdata a = Q.getdata a) →
    computePairSimilarity P ref test = computePairSimilarity Q ref test

/-- The two primitive interpretations refuting C8: they agree on every
letterboxed image but differ on the histograms of the non-letterboxed
`resize((256,256))` grayscale images the histogram extractor actually
receives. -/
def c8P : PILPrims := ⟨fun _ _ => [], fun _ => [], fun _ => [], fun _ => (1, 1)⟩

def c8Q : PILPrims :=
  ⟨fun _ _ => [], fun i => if containsCanvas i then [] else [5], fun _ => [], fun _ => (1, 1)⟩

/-- Counterexample to C8: the histogram (and edge, and hash) extractors do
not receive letterboxed images — `c8P` and `c8Q` agree on all letterboxed
images yet produce different pair scores (0.75 versus 1). -/
theorem c8_counterexample : ¬ ExtractorsSeeOnlyLetterboxed := by
  intro hclaim
  have h := hclaim c8P c8Q (Img.src 0) (Img.src 1)
    (fun a b _ _ => rfl) (fun a ha => by simp [c8P, c8Q, ha]) (fun a _ => rfl)
  have hP : computePairSimilarity c8P (Img.src 0) (Img.src 1) = 0.75 := by
    norm_num [computePairSimilarity, pixelSimilarity, histogramSimilarity, edgeSimilarity,
      hashSimilarity, averageHashBits, blendScores, meanList, clampQ, c8P]
  have hQ : computePairSimilarity c8Q (Img.src 0) (Img.src 1) = 1 := by
    norm_num [computePairSimilarity, pixelSimilarity, histogramSimilarity, edgeSimilarity,
      hashSimilarity, averageHashBits, blendScores, meanList, clampQ, c8Q, containsCanvas]
  rw [hP, hQ] at h
  norm_num at h

/-- C8 (amended): the extractor inputs as the code builds them — the
pixel-difference extractor receives the letterboxed `_normalize_canvas`
images; the histogram and edge extractors receive the plain (distorting)
`resize((256,256))` grayscale images; the perceptual-hash extractor
receives the original images (grayscaled and downsampled to 8×8 inside
`_average_hash_bits`).  The pair score depends on the measurement
primitives only at those six applications. -/
theorem c8_extractor_inputs (P Q : PILPrims) (ref test : Img)
    (hPixel : P.meanDiffChannels (Img.normalizeCanvas ref 256) (Img.normalizeCanvas test 256) =
      Q.meanDiffChannels (Img.normalizeCanvas ref 256) (Img.normalizeCanvas test 256))
    (hHistRef : P.histogram (Img.convertL (Img.resize ref 256 256)) =
      Q.histogram (Img.convertL (Img.resize ref 256 256)))
    (hHistTest : P.histogram (Img.convertL (Img.resize test 256 256)) =
      Q.histogram (Img.convertL (Img.resize test 256 256)))
    (hEdge : P.meanDiffChannels (Img.findEdges (Img.convertL (Img.resize ref 256 256)))
        (Img.findEdges (Img.convertL (Img.resize test 256 256))) =
      Q.meanDiffChannels (Img.findEdges (Img.convertL (Img.resize ref 256 256)))
        (Img.findEdges (Img.convertL (Img.resize test 256 256))))
    (hHashRef : P.getdata (Img.resize (Img.convertL ref) 8 8) =
      Q.getdata (Img.resize (Img.convertL ref) 8 8))
    (hHashTest : P.getdata (Img.resize (Img.convertL test) 8 8) =
      Q.getdata (Img.resize (Img.convertL test) 8 8)) :
    computePairSimilarity P ref test = computePairSimilarity Q ref test := by
  simp only [computePairSimilarity, pixelSimilarity, histogramSimilarity, edgeSimilarity,
    hashSimilarity, averageHashBits]
  rw [hPixel, hHistRef, hHistTest, hEdge, hHashRef, hHashTest]

/-- A copy of `c8P` that reports a different image size: the pair scorer
never consults the size primitive. -/
def c8R : PILPrims := ⟨fun _ _ => [], fun _ => [], fun _ => [], fun _ => (7, 9)⟩

/-- Witness for the amended C8: two interpretations agreeing at the six
extractor input applications (here `c8P` and `c8R`, which differ in their
size primitive) give equal pair scores. -/
theorem c8_witness :
    computePairSimilarity c8P (Img.src 0) (Img.src 1) =
      computePairSimilarity c8R (Img.src 0) (Img.src 1) :=
  c8_extractor_inputs c8P c8R (Img.src 0) (Img.src 1) rfl rfl rfl rfl rfl rfl

lemma fusedTextSimilarity_bounds (raw : PyVal) (extracted : ℚ)
    (h0 : 0 ≤ extracted) (h1 : extracted ≤ 1) :
    ∀ t, fusedTextSimilarity raw extracted = some t → 0 ≤ t ∧ t ≤ 1 := by
  intro t ht
  cases raw with
  | null =>
      simp only [fusedTextSimilarity] at ht
      split_ifs at ht
      · cases ht
        exact ⟨h0, h1⟩
  | num q =>
      simp only [fusedTextSimilarity] at ht
      split_ifs at ht <;> cases ht <;> exact ⟨clampQ_nonneg _, clampQ_le_one _⟩
  | str s oq =>
      simp only [fusedTextSimilarity] at ht
      split_ifs at ht <;> cases ht <;> exact ⟨clampQ_nonneg _, clampQ_le_one _⟩
  | other =>
      simp only [fusedTextSimilarity] at ht
      split_ifs at ht <;> cases ht <;> exact ⟨clampQ_nonneg _, clampQ_le_one _⟩

lemma parsedOutcome_bounds (cfg : VlmConfig) (hints : String → List String)
    (parsed : ParsedVlm) (visual : ℚ) (medicineId : Option String) :
    0 ≤ (parsedOutcome cfg hints parsed visual medicineId).image_similarity ∧
    (parsedOutcome cfg hints parsed visual medicineId).image_similarity ≤ 1 ∧
    0 ≤ (parsedOutcome cfg hints parsed visual medicineId).final_score ∧
    (parsedOutcome cfg hints parsed visual medicineId).final_score ≤ 1 ∧
    ∀ t, (parsedOutcome cfg hints parsed visual medicineId).text_similarity = some t →
      0 ≤ t ∧ t ≤ 1 := by
  refine ⟨clampQ_nonneg _, clampQ_le_one _, clampQ_nonneg _, clampQ_le_one _, ?_⟩
  show ∀ t, fusedTextSimilarity _ _ = some t → _
  exact fusedTextSimilarity_bounds _ _ (jaccardSimilarity_nonneg _ _)
    (jaccardSimilarity_le_one _ _)

lemma computeVisualSimilarity_bounds (env : VlmEnv) (a b : List Nat) (v : ℚ)
    (h : computeVisualSimilarity env a b = .ok v) : 0 ≤ v ∧ v ≤ 1 := by
  unfold computeVisualSimilarity at h
  split_ifs at h
  · cases h
    exact ⟨zero_le_one, le_refl 1⟩
  · rcases hr : env.decode a with _ | ref <;> rcases ht : env.decode b with _ | test <;>
      rw [hr, ht] at h <;> try cases h
    exact ⟨clampQ_nonneg _, clampQ_le_one _⟩

lemma fallbackResult_bounds (cfg : VlmConfig) (visual : ℚ) (reason : String)
    (h0 : 0 ≤ visual) (h1 : visual ≤ 1) :
    0 ≤ (fallbackResult cfg visual reason).image_similarity ∧
    (fallbackResult cfg visual reason).image_similarity ≤ 1 ∧
    0 ≤ (fallbackResult cfg visual reason).final_score ∧
    (fallbackResult cfg visual reason).final_score ≤ 1 ∧
    ∀ t, (fallbackResult cfg visual reason).text_similarity = some t → 0 ≤ t ∧ t ≤ 1 :=
  ⟨h0, h1, h0, h1, fun t ht => by cases ht⟩


lemma mergedVisual_bounds (env : VlmEnv) (referenceBytes testBytes : List Nat)
    (visual0 : ℚ) (h0 : 0 ≤ visual0) (h1 : visual0 ≤ 1) :
    0 ≤ mergedVisual env referenceBytes testBytes visual0 ∧
      mergedVisual env referenceBytes testBytes visual0 ≤ 1 := by
  unfold mergedVisual
  rcases computeEmbeddingSimilarity env referenceBytes testBytes with _ | emb
  · exact ⟨h0, h1⟩
  · exact ⟨clampQ_nonneg _, clampQ_le_one _⟩

/-- C9: every successfully produced `ScoreResult`, on every code path of
`compare_pills_vlm` — the no-API-key fallback, the three degraded external
failure fallbacks, and the fully parsed path — has `image_similarity` and
`final_score` in [0,1], and its `text_similarity`, when present, in
[0,1]. -/
theorem c9_score_result_bounds (cfg : VlmConfig) (env : VlmEnv)
    (referenceUrl testUrl : String) (medicineId : Option String) (res : PillResult)
    (h : comparePillsVlm cfg env referenceUrl testUrl medicineId = .ok res) :
    0 ≤ res.image_similarity ∧ res.image_similarity ≤ 1 ∧
    0 ≤ res.final_score ∧ res.final_score ≤ 1 ∧
    ∀ t, res.text_similarity = some t → 0 ≤ t ∧ t ≤ 1 := by
  unfold comparePillsVlm at h
  split at h
  · cases h
  rename_i referenceBytes hdl
  split at h
  · cases h
  rename_i testBytes hdt
  split at h
  · cases h
  rename_i visual0 hvis
  obtain ⟨hv0, hv1⟩ := computeVisualSimilarity_bounds env referenceBytes testBytes visual0 hvis
  obtain ⟨hm0, hm1⟩ := mergedVisual_bounds env referenceBytes testBytes visual0 hv0 hv1
  split at h
  · cases h
    exact fallbackResult_bounds cfg visual0 _ hv0 hv1
  · split at h <;> cases h
    · exact fallbackResult_bounds cfg _ _ hm0 hm1
    · exact fallbackResult_bounds cfg _ _ hm0 hm1
    · exact fallbackResult_bounds cfg _ _ hm0 hm1
    · rename_i parsed hcall
      exact parsedOutcome_bounds cfg env.hints parsed _ medicineId

/-- Witness for C9 on a concrete degraded run (byte-identical downloads, no
API key): the produced result's fields satisfy the [0,1] bounds. -/
theorem c9_witness :
    0 ≤ (fallbackResult defaultVlmConfig 1
        "Fallback similarity used (HF API key missing).").image_similarity ∧
    (fallbackResult defaultVlmConfig 1
        "Fallback similarity used (HF API key missing).").image_similarity ≤ 1 ∧
    0 ≤ (fallbackResult defaultVlmConfig 1
        "Fallback similarity used (HF API key missing).").final_score ∧
    (fallbackResult defaultVlmConfig 1
        "Fallback similarity used (HF API key missing).").final_score ≤ 1 ∧
    ∀ t, (fallbackResult defaultVlmConfig 1
        "Fallback similarity used (HF API key missing).").text_similarity = some t →
      0 ≤ t ∧ t ≤ 1 :=
  c9_score_result_bounds defaultVlmConfig undecodableEnv "r" "t" none
    (fallbackResult defaultVlmConfig 1 "Fallback similarity used (HF API key missing).") rfl
